import Mathlib

/-!
Shallow embedding of the speech-generation pipeline of `app/tts_handler.py`
(`speed_to_rate`, the voice-resolution logic of `generate_speech`, and the
synthesis/transcode pipeline `_generate_audio`).

Modelling conventions:
* Python floats are modelled as exact rationals (`ℚ`).  Python's
  `f"{x:+.0f}"` formatting rounds the value to the nearest integer with
  ties going to the even integer, takes the sign from the sign of the
  value itself (so a small negative value prints as `-0`), and appends
  nothing else; `rhe` and the sign test below reproduce this on exact
  rationals.
* The external collaborators (the edge-tts network call, the language
  detector, the `ffmpeg` probe and run, the detailed-logging flag) are
  modelled by an explicit environment `Env` recording their outcomes.
* Temporary files are modelled as `TFile` records carrying a unique id
  and the suffix they were allocated with; the set of files of the
  request still on disk when the pipeline returns is tracked explicitly
  as the `disk` field of the result.
-/

namespace TtsHandler

/-- OpenAI voice names mapped to edge-tts equivalents (`voice_mapping`). -/
def voice_mapping : List (String × String) :=
  [("alloy", "en-US-AvaNeural"),
   ("echo", "en-US-AndrewNeural"),
   ("fable", "en-GB-SoniaNeural"),
   ("onyx", "en-US-EricNeural"),
   ("nova", "en-US-SteffanNeural"),
   ("shimmer", "en-US-EmmaNeural")]

/-- The multilingual fallback voice (`MULTILINGUAL_VOICE`). -/
def MULTILINGUAL_VOICE : String := "en-US-AndrewMultilingualNeural"

/-- Language fallback overrides (`LANGUAGE_VOICE_OVERRIDES`). -/
def LANGUAGE_VOICE_OVERRIDES : List (String × String) :=
  [("ru", "ru-RU-DmitryNeural")]

/-- `needle` occurs as a contiguous sublist of the second argument.
Embeds Python's substring test `needle in hay`. -/
def listContains (needle : List Char) : List Char → Bool
  | [] => needle.isEmpty
  | c :: t => needle.isPrefixOf (c :: t) || listContains needle t

/-- Python's `needle in hay` on strings. -/
def strContains (hay needle : String) : Bool :=
  listContains needle.data hay.data

/-- Python's `s.startswith(pre)`. -/
def strStartsWith (s pre : String) : Bool :=
  pre.data.isPrefixOf s.data

/-- Round half to even, the rounding used by Python's `format(x, ".0f")`
on an exactly-represented value. -/
def rhe (x : ℚ) : ℤ :=
  if x - ⌊x⌋ < 1 / 2 then ⌊x⌋
  else if 1 / 2 < x - ⌊x⌋ then ⌊x⌋ + 1
  else if ⌊x⌋ % 2 = 0 then ⌊x⌋ else ⌊x⌋ + 1

/-- `speed_to_rate` of `tts_handler.py`: validates `0 <= speed <= 2`
(raising `ValueError` otherwise, modelled as `Except.error`) and renders
`(speed - 1) * 100` as Python's `f"{pct:+.0f}%"` does. -/
def speed_to_rate (speed : ℚ) : Except String String :=
  if speed < 0 ∨ 2 < speed then
    Except.error "Speed must be between 0 and 2 (inclusive)."
  else
    let pct : ℚ := (speed - 1) * 100
    Except.ok ((if pct < 0 then "-" else "+") ++ toString (rhe pct).natAbs ++ "%")

/-- Voice resolution of `generate_speech` (lines 114-122): alias lookup
with pass-through, then the language-override rule applied to voices that
start with `en-` and do not contain the substring `Multilingual`.
`lang` is the already-detected language code (the detector is an external
collaborator; a detection failure has already degraded to `en`). -/
def mappedVoice (voice : String) : String :=
  (voice_mapping.lookup voice).getD voice

/-- Full voice-resolution step of `generate_speech` as a function of the
selector and the detected language code. -/
def resolveVoice (voice lang : String) : String :=
  let m := mappedVoice voice
  if strStartsWith m "en-" && !strContains m "Multilingual" then
    match LANGUAGE_VOICE_OVERRIDES.lookup lang with
    | some v => v
    | none => if lang ≠ "en" then MULTILINGUAL_VOICE else m
  else m

/-- A temporary file: unique id plus the suffix it was allocated with
(`tempfile.NamedTemporaryFile(delete=False, suffix=...)`). -/
structure TFile where
  id : Nat
  suffix : String
deriving DecidableEq

/-- Rendered path of a temporary file (temp names are unique per request). -/
def TFile.path (f : TFile) : String :=
  "/tmp/tmp" ++ toString f.id ++ f.suffix

/-- The native temp file allocated at the top of `_generate_audio`. -/
def tempMp3 : TFile := ⟨0, ".mp3"⟩

/-- The converted temp file allocated when transcoding is attempted. -/
def convertedFile (fmt : String) : TFile := ⟨1, "." ++ fmt⟩

/-- Outcomes of the external collaborators for one request. -/
structure Env where
  synthOk : Bool
  ffmpegInstalled : Bool
  ffmpegExitCode : Nat
  ffmpegStderr : String
  detailed : Bool
  detected : Option String
deriving DecidableEq

/-- Errors `_generate_audio` can raise: the edge-tts save failing, or the
`RuntimeError` raised on a non-zero ffmpeg exit. -/
inductive GenError where
  | synthesisError
  | transcodeError (msg : String)
deriving DecidableEq

/-- Codec argument table of `_generate_audio` (`-c:a`), with `aac` default. -/
def codecArg (fmt : String) : String :=
  match fmt with
  | "aac" => "aac"
  | "mp3" => "libmp3lame"
  | "wav" => "pcm_s16le"
  | "opus" => "libopus"
  | "flac" => "flac"
  | _ => "aac"

/-- Container argument table of `_generate_audio` (`-f`), defaulting to the
format name itself. -/
def containerArg (fmt : String) : String :=
  match fmt with
  | "aac" => "mp4"
  | "mp3" => "mp3"
  | "wav" => "wav"
  | "opus" => "ogg"
  | "flac" => "flac"
  | _ => fmt

/-- The argument list `_generate_audio` builds for the external encoder
(lines 66-89): codec, a `192k` bitrate for every format except `wav`,
container, `-y`, output path. -/
def ffmpegCommand (inPath outPath fmt : String) : List String :=
  ["ffmpeg", "-i", inPath, "-c:a", codecArg fmt]
    ++ (if fmt ≠ "wav" then ["-b:a", "192k"] else [])
    ++ ["-f", containerArg fmt, "-y", outPath]

/-- An ASCII single quote, written by code point to build Python `repr`
output verbatim. -/
def sq : String := String.singleton (Char.ofNat 39)

/-- Python `repr` of a list of strings, as `str` interpolates `e.cmd`. -/
def pyListRepr (l : List String) : String :=
  "[" ++ String.intercalate ", " (l.map (fun s => sq ++ s ++ sq)) ++ "]"

/-- Python's `str(subprocess.CalledProcessError(...))` for a positive
exit code. -/
def calledProcessErrorStr (cmd : List String) (code : Nat) : String :=
  "Command " ++ sq ++ pyListRepr cmd ++ sq
    ++ " returned non-zero exit status " ++ toString code ++ "."

/-- The error message `_generate_audio` builds on a non-zero encoder
exit: with detailed logging the joined command and the decoded stderr,
otherwise `str(e)` of the `CalledProcessError`. -/
def ffmpegErrMsg (detailed : Bool) (cmd : List String) (code : Nat)
    (stderr : String) : String :=
  if detailed then
    "FFmpeg error during audio conversion. Command: " ++ sq
      ++ String.intercalate " " cmd ++ sq ++ ". Stderr: " ++ stderr
  else
    "FFmpeg error during audio conversion: " ++ calledProcessErrorStr cmd code

instance {ε α : Type} [DecidableEq ε] [DecidableEq α] :
    DecidableEq (Except ε α) := fun x y =>
  match x, y with
  | Except.ok a, Except.ok b => decidable_of_iff (a = b) (by simp)
  | Except.error a, Except.error b => decidable_of_iff (a = b) (by simp)
  | Except.ok _, Except.error _ => isFalse (by simp)
  | Except.error _, Except.ok _ => isFalse (by simp)

/-- Observable outcome of `_generate_audio`: the returned path or raised
error, the request's files still on disk at return, the
(text, voice, rate) triple passed to the synthesis call, and the encoder
invocation if any. -/
structure GenResult where
  result : Except GenError TFile
  disk : List TFile
  synthArgs : String × String × String
  ffmpegCmd : Option (List String)
deriving DecidableEq

/-- The rate string the pipeline passed to the synthesis call. -/
def GenResult.rateUsed (r : GenResult) : String := r.synthArgs.2.2

/-- Embedding of `_generate_audio` (lines 41-106).  The native temp file
is allocated first; the speed conversion falls back to `+0%` on error;
the synthesis call either writes the file or raises (leaving the
allocated file on disk); `mp3` requests and an unavailable encoder return
the native file; otherwise the converted temp file is allocated and the
encoder run, deleting both files and raising on a non-zero exit, or
deleting the native file and returning the converted one on success. -/
def generateAudio (env : Env) (text voice fmt : String) (speed : ℚ) : GenResult :=
  let rate := match speed_to_rate speed with
    | Except.ok r => r
    | Except.error _ => "+0%"
  let args := (text, voice, rate)
  if env.synthOk = false then
    { result := Except.error GenError.synthesisError, disk := [tempMp3],
      synthArgs := args, ffmpegCmd := none }
  else if fmt = "mp3" then
    { result := Except.ok tempMp3, disk := [tempMp3],
      synthArgs := args, ffmpegCmd := none }
  else if env.ffmpegInstalled = false then
    { result := Except.ok tempMp3, disk := [tempMp3],
      synthArgs := args, ffmpegCmd := none }
  else
    let conv := convertedFile fmt
    let cmd := ffmpegCommand tempMp3.path conv.path fmt
    if env.ffmpegExitCode ≠ 0 then
      { result := Except.error (GenError.transcodeError
          (ffmpegErrMsg env.detailed cmd env.ffmpegExitCode env.ffmpegStderr)),
        disk := [], synthArgs := args, ffmpegCmd := some cmd }
    else
      { result := Except.ok conv, disk := [conv],
        synthArgs := args, ffmpegCmd := some cmd }

/-- Embedding of `generate_speech` (lines 108-124): language detection
(failure degrades to `en`), voice resolution, then `_generate_audio` on
the resolved voice. -/
def generate_speech (env : Env) (text voice fmt : String) (speed : ℚ) : GenResult :=
  let detectedLang := env.detected.getD "en"
  generateAudio env text (resolveVoice voice detectedLang) fmt speed

/-- Whether a pipeline outcome is the `RuntimeError` raised on encoder
failure. -/
def isTranscodeErr : Except GenError TFile → Bool
  | Except.error (GenError.transcodeError _) => true
  | _ => false

/-- The message of a raised transcode error (empty otherwise). -/
def errMsg : Except GenError TFile → String
  | Except.error (GenError.transcodeError m) => m
  | _ => ""

/-- The files of the request still on disk, as a function of the outcome:
the returned file and nothing else on success, nothing on error. -/
def diskSpec (r : Except GenError TFile) : List TFile :=
  match r with
  | Except.ok f => [f]
  | Except.error _ => []

/-! ## Theorems -/

/-- Helper: `rhe` rounds to a nearest integer — it never moves the value
by more than `1/2`. -/
theorem rhe_nearest (x : ℚ) : |x - (rhe x : ℚ)| ≤ 1 / 2 := by
  have hfl : (⌊x⌋ : ℚ) ≤ x := Int.floor_le x
  have hfu : x < ⌊x⌋ + 1 := Int.lt_floor_add_one x
  unfold rhe
  split_ifs with h1 h2 h3
  · rw [abs_of_nonneg (by linarith)]
    linarith
  · push_cast
    rw [abs_of_nonpos (by linarith)]
    linarith
  · have hr : x - (⌊x⌋ : ℚ) = 1 / 2 := le_antisymm (not_lt.1 h2) (not_lt.1 h1)
    rw [abs_of_nonneg (by linarith)]
    linarith
  · have hr : x - (⌊x⌋ : ℚ) = 1 / 2 := le_antisymm (not_lt.1 h2) (not_lt.1 h1)
    push_cast
    rw [abs_of_nonpos (by linarith)]
    linarith

/-- Helper: `rhe` fixes integers. -/
theorem rhe_intCast (n : ℤ) : rhe (n : ℚ) = n := by
  unfold rhe
  rw [Int.floor_intCast]
  rw [if_pos (by norm_num)]

/-- Helper: evaluation of `speed_to_rate` at a speed whose percentage is
an exact integer. -/
theorem speed_to_rate_eval (s : ℚ) (n : ℤ) (hs0 : 0 ≤ s) (hs2 : s ≤ 2)
    (hn : (s - 1) * 100 = (n : ℚ)) :
    speed_to_rate s
      = Except.ok ((if n < 0 then "-" else "+") ++ toString n.natAbs ++ "%") := by
  unfold speed_to_rate
  rw [if_neg (by push_neg; exact ⟨by linarith, by linarith⟩)]
  rw [hn]
  simp only [rhe_intCast, Int.cast_lt_zero]

/-- C4: for `0 ≤ speed ≤ 2`, `speed_to_rate` returns `(speed - 1) * 100`
rounded to a nearest integer, rendered with an explicit leading sign and
a trailing percent sign; `speed_to_rate 1 = "+0%"`,
`speed_to_rate 1.2 = "+20%"`, `speed_to_rate 0.5 = "-50%"`; and outside
`[0, 2]` the operation fails. -/
theorem speed_to_rate_spec (s : ℚ) :
    (0 ≤ s → s ≤ 2 →
      ∃ n : ℤ, |(s - 1) * 100 - (n : ℚ)| ≤ 1 / 2 ∧
        speed_to_rate s =
          Except.ok ((if (s - 1) * 100 < 0 then "-" else "+")
            ++ toString n.natAbs ++ "%"))
    ∧ ((s < 0 ∨ 2 < s) →
        speed_to_rate s
          = Except.error "Speed must be between 0 and 2 (inclusive).")
    ∧ speed_to_rate 1 = Except.ok "+0%"
    ∧ speed_to_rate (1.2 : ℚ) = Except.ok "+20%"
    ∧ speed_to_rate (0.5 : ℚ) = Except.ok "-50%" := by
  refine ⟨?_, ?_, ?_, ?_, ?_⟩
  · intro h0 h2
    refine ⟨rhe ((s - 1) * 100), rhe_nearest _, ?_⟩
    unfold speed_to_rate
    rw [if_neg]
    push_neg
    constructor <;> linarith
  · intro h
    unfold speed_to_rate
    rw [if_pos h]
  · rw [speed_to_rate_eval 1 0 (by norm_num) (by norm_num) (by norm_num)]
    rfl
  · rw [speed_to_rate_eval (1.2 : ℚ) 20 (by norm_num) (by norm_num) (by norm_num)]
    rfl
  · rw [speed_to_rate_eval (0.5 : ℚ) (-50) (by norm_num) (by norm_num) (by norm_num)]
    rfl

/-- Witness for C4 at `speed = 1.2` (valid) and `speed = 3` (invalid). -/
theorem speed_to_rate_spec_witness :
    (∃ n : ℤ, |((1.2 : ℚ) - 1) * 100 - (n : ℚ)| ≤ 1 / 2 ∧
        speed_to_rate (1.2 : ℚ) =
          Except.ok ((if ((1.2 : ℚ) - 1) * 100 < 0 then "-" else "+")
            ++ toString n.natAbs ++ "%"))
    ∧ speed_to_rate 3
        = Except.error "Speed must be between 0 and 2 (inclusive)." :=
  ⟨(speed_to_rate_spec (1.2 : ℚ)).1 (by norm_num) (by norm_num),
   (speed_to_rate_spec 3).2.1 (by norm_num)⟩

/-- Helper: the (text, voice, rate) triple passed to the synthesis call,
on every control path. -/
theorem generateAudio_synthArgs (env : Env) (text voice fmt : String) (s : ℚ) :
    (generateAudio env text voice fmt s).synthArgs
      = (text, voice,
          match speed_to_rate s with
          | Except.ok r => r
          | Except.error _ => "+0%") := by
  unfold generateAudio
  dsimp only
  split_ifs <;> rfl

/-- Helper: `speed_to_rate` rejects speeds outside `[0, 2]`. -/
theorem speed_to_rate_invalid (s : ℚ) (h : s < 0 ∨ 2 < s) :
    speed_to_rate s
      = Except.error "Speed must be between 0 and 2 (inclusive)." := by
  unfold speed_to_rate
  rw [if_pos h]

/-- C8: when `speed_to_rate` fails (speed outside `[0, 2]`), the pipeline
substitutes the neutral rate `+0%` and continues: the run is identical to
a run at the neutral speed `1`, so the invalid speed never surfaces as an
error. -/
theorem invalid_speed_neutral (env : Env) (text voice fmt : String) (s : ℚ)
    (h : s < 0 ∨ 2 < s) :
    (generateAudio env text voice fmt s).rateUsed = "+0%"
    ∧ generateAudio env text voice fmt s = generateAudio env text voice fmt 1 := by
  have hs : speed_to_rate s
      = Except.error "Speed must be between 0 and 2 (inclusive)." :=
    speed_to_rate_invalid s h
  have h1 : speed_to_rate 1 = Except.ok "+0%" := by
    rw [speed_to_rate_eval 1 0 (by norm_num) (by norm_num) (by norm_num)]
    rfl
  constructor
  · rw [GenResult.rateUsed, generateAudio_synthArgs, hs]
  · unfold generateAudio
    rw [hs, h1]

/-- Witness for C8 at `speed = 3`. -/
theorem invalid_speed_neutral_witness :
    (generateAudio ⟨true, true, 0, "", false, none⟩ "hi" "en-US-AvaNeural"
        "mp3" 3).rateUsed = "+0%"
    ∧ generateAudio ⟨true, true, 0, "", false, none⟩ "hi" "en-US-AvaNeural"
          "mp3" 3
        = generateAudio ⟨true, true, 0, "", false, none⟩ "hi" "en-US-AvaNeural"
          "mp3" 1 :=
  invalid_speed_neutral ⟨true, true, 0, "", false, none⟩ "hi" "en-US-AvaNeural"
    "mp3" 3 (Or.inr (by norm_num))

/-- C7: an `mp3` request, or any request when the encoder binary is
unavailable, returns the native file unchanged: the native file is the
only file on disk (nothing was deleted) and the encoder is not invoked. -/
theorem transcode_noop (env : Env) (text voice fmt : String) (s : ℚ)
    (hs : env.synthOk = true)
    (h : fmt = "mp3" ∨ env.ffmpegInstalled = false) :
    (generateAudio env text voice fmt s).result = Except.ok tempMp3
    ∧ (generateAudio env text voice fmt s).disk = [tempMp3]
    ∧ (generateAudio env text voice fmt s).ffmpegCmd = none := by
  unfold generateAudio
  rcases h with h | h
  · simp [hs, h]
  · rcases eq_or_ne fmt "mp3" with hf | hf <;> simp [hs, h, hf]

/-- Witness for C7 with the encoder unavailable and a `wav` request. -/
theorem transcode_noop_witness :
    (generateAudio ⟨true, false, 0, "", false, none⟩ "hi" "en-US-AvaNeural"
        "wav" 1).result = Except.ok tempMp3
    ∧ (generateAudio ⟨true, false, 0, "", false, none⟩ "hi" "en-US-AvaNeural"
        "wav" 1).disk = [tempMp3]
    ∧ (generateAudio ⟨true, false, 0, "", false, none⟩ "hi" "en-US-AvaNeural"
        "wav" 1).ffmpegCmd = none :=
  transcode_noop ⟨true, false, 0, "", false, none⟩ "hi" "en-US-AvaNeural"
    "wav" 1 rfl (Or.inr rfl)

/-- C10: for a non-`mp3` request with the encoder unavailable, the
pipeline signals no error and returns the native file, whose suffix is
`.mp3` and not the suffix of the requested format. -/
theorem fallback_suffix_mismatch (env : Env) (text voice fmt : String) (s : ℚ)
    (hs : env.synthOk = true) (hf : env.ffmpegInstalled = false)
    (hfmt : fmt ≠ "mp3") :
    (generateAudio env text voice fmt s).result = Except.ok tempMp3
    ∧ tempMp3.suffix = ".mp3"
    ∧ tempMp3.suffix ≠ "." ++ fmt := by
  refine ⟨?_, rfl, ?_⟩
  · unfold generateAudio
    simp [hs, hf, hfmt]
  · intro h
    apply hfmt
    apply String.ext
    have hd := congrArg String.data h
    rw [String.data_append] at hd
    have hd2 : ('.' :: ['m', 'p', '3'] : List Char) = '.' :: fmt.data := hd
    injection hd2 with h1 h2
    exact h2.symm

/-- Witness for C10 at a `wav` request. -/
theorem fallback_suffix_mismatch_witness :
    (generateAudio ⟨true, false, 0, "", false, none⟩ "hi" "en-US-AvaNeural"
        "wav" 1).result = Except.ok tempMp3
    ∧ tempMp3.suffix = ".mp3"
    ∧ tempMp3.suffix ≠ "." ++ "wav" :=
  fallback_suffix_mismatch ⟨true, false, 0, "", false, none⟩ "hi"
    "en-US-AvaNeural" "wav" 1 rfl rfl (by decide)

/-- C9: a selector absent from the alias mapping passes through
unchanged, and a step-1 voice that is not English-prefixed, or is the
multilingual voice itself, is never overridden, whatever the detected
language. -/
theorem voice_passthrough (voice lang : String) :
    (voice_mapping.lookup voice = none → mappedVoice voice = voice)
    ∧ (strStartsWith (mappedVoice voice) "en-" = false →
        resolveVoice voice lang = mappedVoice voice)
    ∧ (mappedVoice voice = MULTILINGUAL_VOICE →
        resolveVoice voice lang = mappedVoice voice) := by
  refine ⟨?_, ?_, ?_⟩
  · intro h
    unfold mappedVoice
    rw [h]
    rfl
  · intro h
    unfold resolveVoice
    simp [h]
  · intro h
    have hm : strContains (mappedVoice voice) "Multilingual" = true := by
      rw [h]
      decide
    unfold resolveVoice
    simp [hm]

/-- Witness for C9 at the directly-passed voice `fr-FR-DeniseNeural` and
Russian text. -/
theorem voice_passthrough_witness :
    resolveVoice "fr-FR-DeniseNeural" "ru" = mappedVoice "fr-FR-DeniseNeural" :=
  (voice_passthrough "fr-FR-DeniseNeural" "ru").2.1 (by decide)

/-- C2 counterexample: `en-GB-AdaMultilingualNeural` passed with detected
language `fr` satisfies every condition of the claim (English prefix, not
the multilingual voice, no override entry for `fr`, `fr ≠ en`), yet the
resolved voice is not the multilingual fallback — the code also exempts
voices that merely contain `Multilingual`. -/
theorem override_rule_counterexample :
    strStartsWith (mappedVoice "en-GB-AdaMultilingualNeural") "en-" = true
    ∧ mappedVoice "en-GB-AdaMultilingualNeural" ≠ MULTILINGUAL_VOICE
    ∧ LANGUAGE_VOICE_OVERRIDES.lookup "fr" = none
    ∧ "fr" ≠ "en"
    ∧ resolveVoice "en-GB-AdaMultilingualNeural" "fr" ≠ MULTILINGUAL_VOICE := by
  decide

/-- C2 (amended): when the step-1 voice starts with `en-` and does not
contain the substring `Multilingual`, a detected language with an
override entry resolves to that override and any other non-English
detected language resolves to the multilingual fallback; concretely,
`alloy` with Russian resolves to the Russian override and `alloy` with
French to the multilingual fallback. -/
theorem resolve_override_rule (voice lang v : String)
    (hen : strStartsWith (mappedVoice voice) "en-" = true)
    (hml : strContains (mappedVoice voice) "Multilingual" = false) :
    (LANGUAGE_VOICE_OVERRIDES.lookup lang = some v →
      resolveVoice voice lang = v)
    ∧ (LANGUAGE_VOICE_OVERRIDES.lookup lang = none → lang ≠ "en" →
      resolveVoice voice lang = MULTILINGUAL_VOICE)
    ∧ resolveVoice "alloy" "ru" = "ru-RU-DmitryNeural"
    ∧ resolveVoice "alloy" "fr" = MULTILINGUAL_VOICE := by
  refine ⟨?_, ?_, by decide, by decide⟩
  · intro hv
    unfold resolveVoice
    simp [hen, hml, hv]
  · intro hnone hne
    unfold resolveVoice
    simp [hen, hml, hnone, hne]

/-- Witness for C2 (amended) at `alloy` with detected language `ru`. -/
theorem resolve_override_rule_witness :
    resolveVoice "alloy" "ru" = "ru-RU-DmitryNeural" :=
  (resolve_override_rule "alloy" "ru" "ru-RU-DmitryNeural"
    (by decide) (by decide)).1 (by decide)

/-- C6 counterexample: `en-US-EmmaMultilingualNeural` starts with the
English prefix and is not the multilingual voice, and `ru` has an
override entry, yet the voice is not replaced by the override — the
exemption is by the substring `Multilingual`, not by identity with the
multilingual voice. -/
theorem multilingual_exempt_counterexample :
    strStartsWith (mappedVoice "en-US-EmmaMultilingualNeural") "en-" = true
    ∧ mappedVoice "en-US-EmmaMultilingualNeural" ≠ MULTILINGUAL_VOICE
    ∧ LANGUAGE_VOICE_OVERRIDES.lookup "ru" = some "ru-RU-DmitryNeural"
    ∧ resolveVoice "en-US-EmmaMultilingualNeural" "ru" ≠ "ru-RU-DmitryNeural" := by
  decide

/-- C6 (amended): any resolved voice containing the substring
`Multilingual` is exempt from the override rule, and every
English-prefixed voice not containing that substring — alias-derived or
passed directly — is subject to the full override rule. -/
theorem multilingual_exempt_rule (voice lang : String) :
    (strContains (mappedVoice voice) "Multilingual" = true →
      resolveVoice voice lang = mappedVoice voice)
    ∧ (strStartsWith (mappedVoice voice) "en-" = true →
       strContains (mappedVoice voice) "Multilingual" = false →
       resolveVoice voice lang
         = match LANGUAGE_VOICE_OVERRIDES.lookup lang with
           | some v => v
           | none =>
             if lang ≠ "en" then MULTILINGUAL_VOICE else mappedVoice voice) := by
  constructor
  · intro h
    unfold resolveVoice
    simp [h]
  · intro h1 h2
    unfold resolveVoice
    simp [h1, h2]

/-- Witness for C6 (amended): a directly-passed English-prefixed
multilingual-named voice is exempt. -/
theorem multilingual_exempt_rule_witness :
    resolveVoice "en-US-EmmaMultilingualNeural" "ru"
      = mappedVoice "en-US-EmmaMultilingualNeural" :=
  (multilingual_exempt_rule "en-US-EmmaMultilingualNeural" "ru").1 (by decide)

/-- C3 counterexample: the encoder command the pipeline builds for `flac`
does contain a bitrate argument (`-b:a 192k`), contradicting the claimed
table row for `flac`. -/
theorem flac_bitrate_counterexample :
    "-b:a" ∈ ffmpegCommand tempMp3.path (convertedFile "flac").path "flac"
    ∧ (generateAudio ⟨true, true, 0, "", false, none⟩ "hi" "v" "flac" 1).ffmpegCmd
        = some (ffmpegCommand tempMp3.path (convertedFile "flac").path "flac") := by
  decide

/-- C3 (amended): `wav` gets codec `pcm_s16le` with no bitrate argument;
`flac` gets codec `flac` **with** a `192k` bitrate (the code omits the
bitrate only for `wav`); any format outside the table gets codec `aac`,
the format name as container, and a `192k` bitrate; and for every
non-`mp3` format with the encoder available the pipeline invokes the
encoder with exactly these arguments. -/
theorem ffmpeg_args (i o fmt : String) (env : Env) (text voice : String) (s : ℚ) :
    ffmpegCommand i o "wav"
      = ["ffmpeg", "-i", i, "-c:a", "pcm_s16le", "-f", "wav", "-y", o]
    ∧ ffmpegCommand i o "flac"
      = ["ffmpeg", "-i", i, "-c:a", "flac", "-b:a", "192k", "-f", "flac", "-y", o]
    ∧ (fmt ∉ ["aac", "mp3", "wav", "opus", "flac"] →
        ffmpegCommand i o fmt
          = ["ffmpeg", "-i", i, "-c:a", "aac", "-b:a", "192k", "-f", fmt, "-y", o])
    ∧ (env.synthOk = true → env.ffmpegInstalled = true → fmt ≠ "mp3" →
        (generateAudio env text voice fmt s).ffmpegCmd
          = some (ffmpegCommand tempMp3.path (convertedFile fmt).path fmt)) := by
  refine ⟨rfl, rfl, ?_, ?_⟩
  · intro h
    simp only [List.mem_cons, List.not_mem_nil, or_false, not_or] at h
    obtain ⟨h1, h2, h3, h4, h5⟩ := h
    have hc : codecArg fmt = "aac" := by
      unfold codecArg
      split <;> simp_all
    have hcont : containerArg fmt = fmt := by
      unfold containerArg
      split <;> simp_all
    unfold ffmpegCommand
    rw [hc, hcont, if_pos h3]
    rfl
  · intro hs hi hfmt
    unfold generateAudio
    dsimp only
    rw [if_neg (by simp [hs]), if_neg hfmt, if_neg (by simp [hi])]
    split_ifs <;> rfl

/-- Witness for C3 (amended) at the out-of-table format `weird`. -/
theorem ffmpeg_args_witness :
    ffmpegCommand "in.mp3" "out.weird" "weird"
      = ["ffmpeg", "-i", "in.mp3", "-c:a", "aac", "-b:a", "192k", "-f",
         "weird", "-y", "out.weird"]
    ∧ (generateAudio ⟨true, true, 0, "", false, none⟩ "hi" "v" "weird" 1).ffmpegCmd
      = some (ffmpegCommand tempMp3.path (convertedFile "weird").path "weird") :=
  ⟨(ffmpeg_args "in.mp3" "out.weird" "weird" ⟨true, true, 0, "", false, none⟩
      "hi" "v" 1).2.2.1 (by decide),
   (ffmpeg_args "in.mp3" "out.weird" "weird" ⟨true, true, 0, "", false, none⟩
      "hi" "v" 1).2.2.2 rfl rfl (by decide)⟩

/-- C5 counterexample: with detailed error logging off (a supported
configuration), the error raised on a non-zero encoder exit does not
carry the encoder's stderr (`boom` does not occur in the message), though
both files are deleted. -/
theorem transcode_diag_counterexample :
    isTranscodeErr (generateAudio ⟨true, true, 1, "boom", false, none⟩ "hi" "v"
        "wav" 1).result = true
    ∧ (generateAudio ⟨true, true, 1, "boom", false, none⟩ "hi" "v" "wav" 1).disk
        = []
    ∧ strContains
        (errMsg (generateAudio ⟨true, true, 1, "boom", false, none⟩ "hi" "v"
          "wav" 1).result) "boom" = false := by
  decide

/-- C5 (amended): on a non-zero encoder exit both the native and the
converted file are deleted and a transcode error is raised, whose message
carries the encoder's stderr when detailed error logging is enabled; on a
zero exit the native file is deleted and the converted file returned. -/
theorem transcode_cleanup (env : Env) (text voice fmt : String) (s : ℚ)
    (hfmt : fmt ≠ "mp3") (hs : env.synthOk = true)
    (hi : env.ffmpegInstalled = true) :
    (env.ffmpegExitCode ≠ 0 →
      (generateAudio env text voice fmt s).disk = []
      ∧ isTranscodeErr (generateAudio env text voice fmt s).result = true
      ∧ (env.detailed = true →
          ∃ p, errMsg (generateAudio env text voice fmt s).result
            = p ++ env.ffmpegStderr))
    ∧ (env.ffmpegExitCode = 0 →
      (generateAudio env text voice fmt s).result = Except.ok (convertedFile fmt)
      ∧ (generateAudio env text voice fmt s).disk = [convertedFile fmt]) := by
  constructor
  · intro hc
    unfold generateAudio
    dsimp only
    rw [if_neg (by simp [hs]), if_neg hfmt, if_neg (by simp [hi]), if_pos hc]
    refine ⟨rfl, rfl, ?_⟩
    intro hd
    refine ⟨"FFmpeg error during audio conversion. Command: " ++ sq
      ++ String.intercalate " "
          (ffmpegCommand tempMp3.path (convertedFile fmt).path fmt)
      ++ sq ++ ". Stderr: ", ?_⟩
    show ffmpegErrMsg env.detailed _ _ _ = _
    rw [hd]
    unfold ffmpegErrMsg
    rw [if_pos rfl]
  · intro hc
    unfold generateAudio
    dsimp only
    rw [if_neg (by simp [hs]), if_neg hfmt, if_neg (by simp [hi]),
      if_neg (by simp [hc])]
    exact ⟨rfl, rfl⟩

/-- Witness for C5 (amended): encoder failure with stderr `boom` and
detailed logging on. -/
theorem transcode_cleanup_witness :
    (generateAudio ⟨true, true, 1, "boom", true, none⟩ "hi" "v" "wav" 1).disk = []
    ∧ isTranscodeErr
        (generateAudio ⟨true, true, 1, "boom", true, none⟩ "hi" "v" "wav" 1).result
        = true
    ∧ ∃ p, errMsg
        (generateAudio ⟨true, true, 1, "boom", true, none⟩ "hi" "v" "wav" 1).result
        = p ++ "boom" := by
  have h := (transcode_cleanup ⟨true, true, 1, "boom", true, none⟩ "hi" "v"
    "wav" 1 (by decide) rfl rfl).1 (by decide)
  exact ⟨h.1, h.2.1, h.2.2 rfl⟩

/-- C1 counterexample: when the remote synthesis call raises, the
pre-allocated native temp file of the failed request remains on disk. -/
theorem synthesis_leak_counterexample :
    (generate_speech ⟨false, true, 0, "", false, none⟩ "hi" "alloy" "mp3" 1).result
      = Except.error GenError.synthesisError
    ∧ (generate_speech ⟨false, true, 0, "", false, none⟩ "hi" "alloy" "mp3" 1).disk
      = [tempMp3]
    ∧ (generate_speech ⟨false, true, 0, "", false, none⟩ "hi" "alloy" "mp3" 1).disk
      ≠ [] := by
  decide

/-- C1 (amended): when the synthesis step succeeds, no temporary file
other than the one returned remains on disk after the pipeline returns,
on success and on transcode failure alike; but when the synthesis call
raises, the pre-allocated native temp file of the failed request remains
on disk. -/
theorem cleanup_invariant (env : Env) (text voice fmt : String) (s : ℚ) :
    (env.synthOk = true →
      (generate_speech env text voice fmt s).disk
        = diskSpec (generate_speech env text voice fmt s).result)
    ∧ (env.synthOk = false →
      (generate_speech env text voice fmt s).result
          = Except.error GenError.synthesisError
      ∧ (generate_speech env text voice fmt s).disk = [tempMp3]) := by
  constructor
  · intro hs
    unfold generate_speech generateAudio
    dsimp only
    rw [if_neg (by simp [hs])]
    split_ifs <;> rfl
  · intro hs
    unfold generate_speech generateAudio
    dsimp only
    rw [if_pos hs]
    exact ⟨rfl, rfl⟩

/-- Witness for C1 (amended): successful synthesis of a `wav` request
with the encoder failing leaves exactly the files `diskSpec` allows. -/
theorem cleanup_invariant_witness :
    (generate_speech ⟨true, true, 1, "x", false, none⟩ "hi" "alloy" "wav" 1).disk
      = diskSpec
          (generate_speech ⟨true, true, 1, "x", false, none⟩ "hi" "alloy"
            "wav" 1).result :=
  (cleanup_invariant ⟨true, true, 1, "x", false, none⟩ "hi" "alloy" "wav" 1).1 rfl

end TtsHandler
